import Mathlib

/-
Verification of the environment resolution, creation and self-update engine
of run.py. Every definition below is a shallow embedding of a function of
run.py; the doc comment of each definition names the source symbol it embeds.
Filesystem state is passed explicitly: the set of regular files is a list of
resolved path strings, directories under the venv root are lists of path
components, and file contents are association lists from paths to strings.
-/

/-- Character class of the regex fragment between brackets in
the version pattern of run.py line 145, which is the class [0-9]
followed by the starred class [0-9a-z.!+]: the leading class. -/
def inDigit (c : Char) : Bool := decide ('0' ≤ c) && decide (c ≤ '9')

/-- Leading character class of the tag pattern of run.py line 146, which is
the class [a-z] followed by the starred class [a-z0-9-]. -/
def inLower (c : Char) : Bool := decide ('a' ≤ c) && decide (c ≤ 'z')

/-- Truth value of `re.match` for a pattern of the shape `C R*`: the match is
anchored at position 0 and the starred class may match zero characters, so a
match exists exactly when the string is nonempty and its first character is in
the class `C`. -/
def reMatchHeadStar (c : Char → Bool) (s : String) : Bool :=
  match s.data with
  | [] => false
  | a :: _ => c a

/-- Embedding of `is_version` (run.py line 148): `version_re.match(version)`
is truthy. -/
def is_version (v : String) : Bool := reMatchHeadStar inDigit v

/-- Embedding of `is_tag` (run.py line 149): `tag_re.match(version)` is
truthy. -/
def is_tag (v : String) : Bool := reMatchHeadStar inLower v

/-- Embedding of `is_dev` (run.py line 150): the version string equals the
literal development sentinel `dev`. -/
def is_dev (v : String) : Bool := v == "dev"

/-- Embedding of `is_wheel` (run.py line 151):
`pathlib.Path(version).resolve().is_file()`. The filesystem is passed
explicitly as the list of existing regular files; `resolve()` is abstracted as
the identity, so version strings are taken as already-resolved paths. -/
def is_wheel (files : List String) (v : String) : Bool := files.contains v

/-- The four VersionSpec variants of the spec. -/
inductive VersionVariant where
  | development
  | localArtifact
  | tag
  | explicitVersion
deriving DecidableEq

/-- Classification of a version string in the precedence order the code
checks the predicates everywhere (`requirements`, `find`, `new`, main):
`is_dev` first, then `is_wheel`, then `is_tag`, then `is_version`; `none` when
no predicate holds. -/
def classify (files : List String) (v : String) : Option VersionVariant :=
  if is_dev v then some VersionVariant.development
  else if is_wheel files v then some VersionVariant.localArtifact
  else if is_tag v then some VersionVariant.tag
  else if is_version v then some VersionVariant.explicitVersion
  else none

/-- Configuration data as used by `EnvBuilder.requirements`: the `package`
and `version` keys, and the optional `tags` table (an association list;
`none` models a config document without a `tags` key). -/
structure Config where
  package : String
  version : String
  tags : Option (List (String × String))
deriving DecidableEq

/-- Errors raised by the embedded fragments of run.py. -/
inductive RunError where
  | unknownTag (msg : String)
  | keyError (key : String)
deriving DecidableEq

/-- Embedding of `dict.get` on the tags table: first binding of the key. -/
def lookupTag (v : String) : List (String × String) → Option String
  | [] => none
  | (k, n) :: rest => if k = v then some n else lookupTag v rest

/-- Embedding of Python `sorted` on the tag keys: the ascending (by code
point) permutation of the list. -/
def sortStrings (l : List String) : List String :=
  List.insertionSort (fun a b => a ≤ b) l

/-- The message of the exception raised by `EnvBuilder.requirements`
(run.py lines 306-307) for an unknown tag. -/
def unknownTagMessage (v : String) (keys : List String) : String :=
  "Unknown version tag: " ++ v ++ "\nAvailable tags: " ++
    String.intercalate " " keys

/-- The manifest line returned by `EnvBuilder.requirements` (run.py line 308)
for a resolved version number: the `Explicit` form of the manifest. -/
def pinnedManifest (package versionNum : String) : String :=
  package ++ "==" ++ versionNum ++ "\n"

/-- Embedding of `pathlib.Path.as_uri` for already-resolved absolute paths. -/
def asUri (p : String) : String := "file://" ++ p

/-- Embedding of `EnvBuilder.requirements` (run.py lines 300-308). The
branches mirror the source: `is_dev` gives the editable manifest, `is_wheel`
the file URI, otherwise the tag table is consulted when `is_tag` holds
(a get on the tags table with an empty-table default), and a missing
resolution raises; note the error message itself indexes the tags key of the
config directly, which raises a KeyError when the table is absent. -/
def renderRequirements (base : String) (files : List String) (cfg : Config)
    (v : String) : Except RunError String :=
  if is_dev v then Except.ok ("-e " ++ asUri base ++ "\n")
  else if is_wheel files v then Except.ok (asUri v ++ "\n")
  else
    let versionNum := if is_tag v then lookupTag v (cfg.tags.getD []) else some v
    match versionNum with
    | some n => Except.ok (pinnedManifest cfg.package n)
    | none =>
      match cfg.tags with
      | some tags =>
        Except.error (RunError.unknownTag
          (unknownTagMessage v (sortStrings (tags.map Prod.fst))))
      | none => Except.error (RunError.keyError "tags")

/-- Python regex class `[^\s;]` complement: whitespace or a semicolon. -/
def pyWsSemi (c : Char) : Bool :=
  c = ' ' || c = '\t' || c = '\n' || c = '\r' || c = '\x0b' || c = '\x0c' || c = ';'

/-- Prefix test on character lists, embedding `str.startswith` for the
literal prefixes tested by run.py. -/
def listHeadMatch : List Char → List Char → Bool
  | [], _ => true
  | _ :: _, [] => false
  | a :: as, b :: bs => if a = b then listHeadMatch as bs else false

/-- `s.startswith(pre)` on the embedded strings. -/
def strBegins (pre s : String) : Bool := listHeadMatch pre.data s.data

/-- Python slicing `s[n:]`: drop the first `n` characters. -/
def dropStr (n : Nat) (s : String) : String := String.mk (s.data.drop n)

/-- Whether the last character of a string is a newline
(endswith with a newline argument). -/
def lastIsNl : List Char → Bool
  | [] => false
  | [c] => c = '\n'
  | _ :: b :: rest => lastIsNl (b :: rest)

/-- Embedding of `EnvBuilder.version_from` (run.py lines 310-312):
a search of the anchored pattern caret, escaped package name, two equals
signs, a captured nonempty run of the class [^\s;], dollar.
Without `re.M`, `^` anchors only at position 0 and `$` matches only at the
end of the string or just before a terminating newline, so a match exists
exactly when the text starts with `package==` and the remainder (up to an
optional final newline) is nonempty and free of whitespace and semicolons. -/
def version_from (package : String) (reqs : String) : Option String :=
  if strBegins (package ++ "==") reqs then
    let rest := dropStr (package ++ "==").data.length reqs
    let core := if lastIsNl rest.data then String.mk rest.data.dropLast else rest
    if core = "" then none
    else if core.data.all (fun c => !(pyWsSemi c)) then some core
    else none
  else none

/-- Python str() of an optional value, as interpolated by the f-string in
`Env.check_upgrade`: a missing value renders as the four letters None. -/
def optStr : Option String → String
  | some s => s
  | none => "None"

/-- Per-environment persisted files used by `Env.check_upgrade`:
`requirements.txt`, `requirements-upgrade.txt` and `upgrade.txt`; `none`
models an absent (or unreadable) file. -/
structure EnvFiles where
  requirements : Option String
  requirementsNew : Option String
  upgrade : Option String
deriving DecidableEq

/-- Embedding of `Env.check_upgrade` (run.py lines 236-250). `fetchOk` is the
outcome of `fetch_config`; `rendered` is the outcome of
`builder.requirements(config=config)`. Any exception is swallowed by the
final `except` (the non-debug path), so a failed fetch or render leaves the
state unchanged. When the rendered manifest differs from the installed one,
the pending manifest is committed first; the display pair is only written
afterwards, and `version_from(None)` raises (swallowed) when the installed
manifest is absent. -/
def check_upgrade (fetchOk : Bool) (rendered : Except RunError String)
    (package : String) (st : EnvFiles) : EnvFiles :=
  if fetchOk then
    match rendered with
    | Except.error _ => st
    | Except.ok reqs =>
      if st.requirements = some reqs then st
      else
        let st1 := EnvFiles.mk st.requirements (some reqs) st.upgrade
        match st.requirements with
        | none => st1
        | some curReqs =>
          EnvFiles.mk st1.requirements st1.requirementsNew
            (some (optStr (version_from package curReqs) ++ " " ++
                   optStr (version_from package reqs)))
  else st

/-- An environment directory as enumerated by `EnvBuilder.find`: its
directory name under the venv root, and the content of its
`requirements.txt` when readable (`Env.requirements`, run.py lines 175-180,
returns `None` on `OSError`). -/
structure EnvM where
  name : String
  reqs : Option String
deriving DecidableEq

/-- A glob pattern as built by `EnvBuilder.find`: either a literal name
(`dev`, `wheel`) or a literal prefix followed by a single final `*`
(the version string followed by a dash and a star). -/
inductive GlobPat where
  | lit (name : String)
  | starSuffix (pre : String)
deriving DecidableEq

/-- Glob pattern matching as used by `root.glob(pat)` in `EnvBuilder.find`. -/
def patMatches (pat : GlobPat) (name : String) : Bool :=
  match pat with
  | GlobPat.lit n => name == n
  | GlobPat.starSuffix pre => strBegins pre name

/-- The pattern chosen by `EnvBuilder.find` (run.py lines 315-316). -/
def findPattern (files : List String) (v : String) : GlobPat :=
  if is_dev v then GlobPat.lit "dev"
  else if is_wheel files v then GlobPat.lit "wheel"
  else GlobPat.starSuffix (v ++ "-")

/-- The `envs.sort(key=lambda e: e.path, reverse=True)` step of
`EnvBuilder.find`: sort by name descending. -/
def sortByNameDesc (l : List EnvM) : List EnvM :=
  List.insertionSort (fun a b => b.name ≤ a.name) l

/-- Embedding of `EnvBuilder.find` (run.py lines 314-320). `rootEnvs` is the
directory listing of the venv root. The `matching` component keeps exactly
those enumerated environments whose `requirements` attribute is not `None`,
that is, whose persisted manifest file was readable. -/
def find (files : List String) (rootEnvs : List EnvM) (v : String) :
    List EnvM × List EnvM :=
  let pat := findPattern files v
  let envs := sortByNameDesc (rootEnvs.filter (fun e => patMatches pat e.name))
  (envs, envs.filter (fun e => e.reqs.isSome))

/-- Rendering of a path (a list of components) for error messages. -/
def pathStr (p : List String) : String := String.intercalate "/" p

/-- Embedding of `pathlib.PurePath.relative_to`: `relative_to p root` is the
list of components of `p` past `root` when `root` is an initial segment of
`p`, and `none` (the `ValueError` case) otherwise. `relative_to p p` is
`some []`, the embedding of the empty relative path `Path()`. -/
def relative_to (p root : List String) : Option (List String) :=
  match root, p with
  | [], rest => some rest
  | _ :: _, [] => none
  | r :: rs, x :: xs => if x = r then relative_to xs rs else none

/-- The body of the `try` block of `Env.remove` (run.py lines 213-218).
An error value is an exception escaping the `try` body: the explicit
`raise` when the path equals the venv root, or the `ValueError` from
`relative_to` when the path is not below the root at all. `shutil.rmtree`
with an `onexc` handler does not raise: a removal failure is written to the
log by the handler and the directory survives (coarsely: `rmtreeOk` says
whether the tree was fully removed). -/
def removeEnvTry (rmtreeOk : Bool) (root p : List String)
    (dirs : List (List String)) :
    Except String (List (List String) × List String) :=
  match relative_to p root with
  | none =>
    Except.error (pathStr p ++ " is not in the subpath of " ++ pathStr root)
  | some [] => Except.error (pathStr p ++ ": Not below venv root")
  | some (_ :: _) =>
    if rmtreeOk then Except.ok (dirs.filter (fun d => d ≠ p), [])
    else Except.ok (dirs, ["ERROR: rmtree: " ++ pathStr p])

/-- Embedding of `Env.remove` (run.py lines 212-220): the surrounding
`except Exception` catches every exception of the `try` body, writes a
single `ERROR:` line to the builder output, and returns normally, so
`remove` never propagates an exception to its caller. The result is the
surviving directory set together with the written error lines. -/
def removeEnv (rmtreeOk : Bool) (root p : List String)
    (dirs : List (List String)) : List (List String) × List String :=
  match removeEnvTry rmtreeOk root p dirs with
  | Except.ok r => r
  | Except.error e => (dirs, ["ERROR: " ++ e])

/-- Embedding of `Env.create` (run.py lines 201-210) for an environment
named `name` under the venv root. Materialization (`self.builder.create`)
first brings the directory into existence; when it fails
(`materializeOk = false`) the `except BaseException` handler removes the
partial directory via `self.remove()` and re-raises the original exception.
The tree removal primitive is taken to succeed, matching the level at which
the spec treats the filesystem. -/
def createEnv (materializeOk : Bool) (err : String) (root : List String)
    (name : String) (dirs : List (List String)) :
    Except String Unit × List (List String) :=
  let p := root ++ [name]
  let dirs1 := p :: dirs
  if materializeOk then (Except.ok (), dirs1)
  else (Except.error err, (removeEnv true root p dirs1).1)

/-- Result of the voluntary-upgrade attempt of main (run.py lines 95-104). -/
structure UpgradeResult where
  active : List String
  dirs : List (List String)
  warnings : List String
deriving DecidableEq

/-- Embedding of the accepted-upgrade branch of main (run.py lines 95-104):
a brand-new environment is created; on success it becomes the active one,
on failure the exception is downgraded to a warning and the previously
active environment (at `oldPath`) is kept. Nothing in this branch removes
any directory. -/
def upgradeAttempt (materializeOk : Bool) (err : String) (root : List String)
    (newName : String) (oldPath : List String)
    (dirs : List (List String)) : UpgradeResult :=
  match createEnv materializeOk err root newName dirs with
  | (Except.ok _, d) => UpgradeResult.mk (root ++ [newName]) d []
  | (Except.error _, d) =>
    UpgradeResult.mk oldPath d
      ["The upgrade failed. Continuing with the current version."]

/-- The environment selected as `env` before the eviction loop of main
(run.py lines 68-80): either one of the enumerated environments, referenced
by its position (`matching[0]` is such an element), or the freshly built
environment returned by `builder.new()`, a distinct object even when its
directory name coincides with an enumerated one. The loop guard
`e is not env` is object identity, which this reference type captures. -/
inductive KeepRef where
  | member (i : Nat)
  | fresh (name : String)
deriving DecidableEq

/-- The directory of the kept environment. -/
def keepPath (root : List String) (names : List String) :
    KeepRef → List String
  | KeepRef.member i => root ++ [names.getD i ""]
  | KeepRef.fresh n => root ++ [n]

/-- Embedding of the eviction loop of main (run.py lines 78-80):
`for e in envs: if e is not env: e.remove()`. `names` are the enumerated
environment directory names (each env path is `root / name`); `rmOk` gives
the per-directory `rmtree` outcome. Each `Env.remove` call returns normally
(see `removeEnv`), so the loop always completes; error lines accumulate. -/
def evict (rmOk : String → Bool) (root : List String) (names : List String)
    (keep : KeepRef) (dirs : List (List String)) :
    List (List String) × List String :=
  names.enum.foldl
    (fun st jn =>
      if keep = KeepRef.member jn.1 then st
      else
        let r := removeEnv (rmOk jn.2) root (root ++ [jn.2]) st.1
        (r.1, st.2 ++ r.2))
    (dirs, [])

/-- File contents of a directory tree: an association list from paths to
contents; an earlier binding shadows a later one. -/
abbrev FSm : Type := List (List String × String)

/-- Reading a file: the first binding of the path, `none` when absent. -/
def readFS : FSm → List String → Option String
  | [], _ => none
  | (q, c) :: rest, p => if q = p then some c else readFS rest p

/-- Creating or overwriting a file. -/
def setFS (p : List String) (c : String) (m : FSm) : FSm := (p, c) :: m

/-- Deleting a file (every binding of the path). -/
def delFS (p : List String) (m : FSm) : FSm :=
  m.filter (fun e => e.1 ≠ p)

/-- The temporary file used by `write_atomic` (run.py lines 154-161): a
fresh name in the same directory as the target, formed from the target name
plus a suffix (`tempfile.NamedTemporaryFile` with `dir=path.parent` and
prefix equal to the target name plus a dot). -/
def tmpName : List String → List String
  | [] => [".tmp"]
  | [a] => [a ++ ".tmp"]
  | a :: b :: rest => a :: tmpName (b :: rest)

/-- The sequence of filesystem states produced by a run of `write_atomic`
(run.py lines 154-161) whose body writes `content`: the initial state, the
states in which the temporary file holds each successive prefix of the
content, and the final state after `pathlib.Path(f.name).replace(path)`
renames the temporary file onto the target. An aborted run is a prefix of
this sequence that stops before the final state (the temporary file is then
deleted by the `NamedTemporaryFile` context manager, which never touches
the target). -/
def writeAtomicStates (fs : FSm) (target : List String) (content : String) :
    List FSm :=
  (fs :: (List.range (content.length + 1)).map
      (fun k => setFS (tmpName target) (String.mk (content.data.take k)) fs))
    ++ [setFS target content (delFS (tmpName target) fs)]

/-- Embedding of the option-parsing loop of main (run.py lines 36-54),
restricted to the `version` variable it threads: arguments are scanned while
they start with `--`; a bare `--` ends the scan; `--config=`, `--debug` and
`--print=` leave the version unchanged; `--version=X` replaces it with `X`
(so a later occurrence wins); any other `--option` raises. The initial value
is the TDOC_VERSION environment variable, absent when unset. -/
def parseOpts : List String → Option String → Except String (Option String)
  | [], v => Except.ok v
  | arg :: rest, v =>
    if strBegins "--" arg then
      if arg = "--" then Except.ok v
      else if strBegins "--config=" arg then parseOpts rest v
      else if arg = "--debug" then parseOpts rest v
      else if strBegins "--print=" arg then parseOpts rest v
      else if strBegins "--version=" arg then
        parseOpts rest (some (dropStr 10 arg))
      else Except.error ("Unknown option: " ++ arg)
    else Except.ok v

/-- The effective version: the result of the argument scan (command line
over environment variable), with the declared default of the config
substituted
when both are absent (`EnvBuilder.__init__`, run.py line 263). -/
def effectiveVersion (args : List String) (envVersion : Option String)
    (configDefault : String) : Except String String :=
  match parseOpts args envVersion with
  | Except.error e => Except.error e
  | Except.ok none => Except.ok configDefault
  | Except.ok (some v) => Except.ok v

/-- The validation of `EnvBuilder.__init__` (run.py lines 264-265):
`is_version(version) or is_tag(version) or is_wheel(version)`, else raise.
(The development sentinel needs no separate test there because `dev`
already matches the tag pattern.) -/
def validateVersion (files : List String) (v : String) :
    Except String String :=
  if is_version v || is_tag v || is_wheel files v then Except.ok v
  else Except.error ("Invalid version: " ++ v)

theorem digit_lower_disjoint (c : Char) :
    ¬(inDigit c = true ∧ inLower c = true) := by
  intro h
  obtain ⟨h1, h2⟩ := h
  simp only [inDigit, inLower, Bool.and_eq_true, decide_eq_true_eq] at h1 h2
  have h3 : ('a' : Char) ≤ '9' := le_trans h2.1 h1.2
  exact absurd h3 (by decide)

theorem version_tag_exclusive (v : String) :
    ¬(is_version v = true ∧ is_tag v = true) := by
  intro h
  obtain ⟨h1, h2⟩ := h
  simp only [is_version, is_tag, reMatchHeadStar] at h1 h2
  cases hd : v.data with
  | nil => rw [hd] at h1; exact absurd h1 (by simp)
  | cons a rest =>
    rw [hd] at h1 h2
    exact digit_lower_disjoint a ⟨h1, h2⟩

theorem is_dev_imp_tag (v : String) (h : is_dev v = true) : is_tag v = true := by
  have hv : v = "dev" := eq_of_beq h
  subst hv
  decide

/-- C2 counterexample: the four classification predicates are neither
mutually exclusive nor total. The string `dev` satisfies both the development
sentinel and the tag pattern, and the one-character exclamation-mark string
satisfies none of the four
predicates (with no file of that name present), so it is false that exactly
one predicate holds for every version string. -/
theorem C2_counterexample :
    (is_dev "dev" = true ∧ is_tag "dev" = true) ∧
    (is_dev "!" = false ∧ is_wheel [] "!" = false ∧ is_tag "!" = false ∧
      is_version "!" = false) := by
  decide

/-- C2 (amended): the version-number and tag patterns are mutually exclusive
(a version number starts with a digit, a tag with a lowercase letter), but
the four predicates together are neither pairwise disjoint nor total; the
code disambiguates by testing them in a fixed precedence order (development
sentinel, existing file, tag, version number), so classification assigns at
most one variant, and a variant exists exactly when at least one predicate
holds. -/
theorem C2_classification_amended (files : List String) (v : String) :
    (¬(is_version v = true ∧ is_tag v = true)) ∧
    ((classify files v).isSome = true ↔
      (is_dev v || is_wheel files v || is_tag v || is_version v) = true) := by
  refine ⟨version_tag_exclusive v, ?_⟩
  unfold classify
  cases h1 : is_dev v <;> cases h2 : is_wheel files v <;>
    cases h3 : is_tag v <;> cases h4 : is_version v <;> simp

/-- Witness for the C2 amended theorem at a concrete input. -/
theorem C2_classification_witness :
    ¬(is_version "stable" = true ∧ is_tag "stable" = true) :=
  (C2_classification_amended [] "stable").1

/-- C1 counterexample: an environment whose persisted manifest differs from
the manifest rendered from the spec is nevertheless in the matching list.
For version `1.0.0` the rendered manifest is `pkg==1.0.0\n`, yet the
enumerated environment `1.0.0-a` whose requirements file holds `garbage`
is returned in `matching`, because `EnvBuilder.find` only tests that the
requirements file is readable and never compares its content. -/
theorem C1_counterexample :
    (EnvM.mk "1.0.0-a" (some "garbage")) ∈
      (find [] [EnvM.mk "1.0.0-a" (some "garbage")] "1.0.0").2 ∧
    renderRequirements "/b" [] (Config.mk "pkg" "1.0.0" (some [])) "1.0.0" =
      Except.ok "pkg==1.0.0\n" ∧
    (EnvM.mk "1.0.0-a" (some "garbage")).reqs ≠ some "pkg==1.0.0\n" := by
  refine ⟨by decide, rfl, by decide⟩

/-- C1 (amended): the matching list of `EnvBuilder.find` consists exactly of
the enumerated environments whose persisted manifest file exists and is
readable; the manifest content is not compared to the manifest rendered from
the spec. -/
theorem C1_matching_amended (files : List String) (rootEnvs : List EnvM)
    (v : String) (e : EnvM) :
    e ∈ (find files rootEnvs v).2 ↔
      e ∈ (find files rootEnvs v).1 ∧ e.reqs.isSome = true := by
  simp [find, List.mem_filter]

/-- Witness for the C1 amended theorem at a concrete input. -/
theorem C1_matching_witness :
    (EnvM.mk "1.0.0-b" (some "m")) ∈
      (find [] [EnvM.mk "1.0.0-b" (some "m")] "1.0.0").2 :=
  (C1_matching_amended [] [EnvM.mk "1.0.0-b" (some "m")] "1.0.0"
    (EnvM.mk "1.0.0-b" (some "m"))).mpr ⟨by decide, by decide⟩

theorem relative_to_self (l : List String) : relative_to l l = some [] := by
  induction l with
  | nil => rfl
  | cons a as ih => simp [relative_to, ih]

theorem relative_to_append (r s : List String) :
    relative_to (r ++ s) r = some s := by
  induction r with
  | nil => simp [relative_to]
  | cons a as ih => simp [relative_to, ih]

/-- C3 counterexample: removing an environment whose path equals the venv
root is not fatal. The raise inside the `try` body of `Env.remove` does
occur (left conjunct), but it is caught by the `except Exception` clause of
`Env.remove` itself, which writes an `ERROR:` line and returns normally:
the caller receives the unchanged directory set and the log line, not an
exception (right conjunct), so the error never propagates. -/
theorem C3_counterexample :
    removeEnvTry true ["b", "_venv"] ["b", "_venv"] [["b", "_venv"]] =
      Except.error "b/_venv: Not below venv root" ∧
    removeEnv true ["b", "_venv"] ["b", "_venv"] [["b", "_venv"]] =
      ([["b", "_venv"]], ["ERROR: b/_venv: Not below venv root"]) := by
  refine ⟨rfl, rfl⟩

/-- C3 (amended): for every environment whose path equals the managed root,
`Env.remove` raises internally, catches the exception itself, writes a
single non-silent `ERROR: ... Not below venv root` line to the output
stream, and leaves the directory set unchanged (the root is not deleted);
it returns normally, so the error is not fatal to the caller. -/
theorem C3_remove_amended (rmtreeOk : Bool) (root : List String)
    (dirs : List (List String)) :
    removeEnv rmtreeOk root root dirs =
      (dirs, ["ERROR: " ++ (pathStr root ++ ": Not below venv root")]) := by
  simp [removeEnv, removeEnvTry, relative_to_self]

theorem is_version_not_tag (n : String) (h : is_version n = true) :
    is_tag n = false := by
  cases ht : is_tag n
  · rfl
  · exact absurd ⟨h, ht⟩ (version_tag_exclusive n)

theorem is_version_not_dev (n : String) (h : is_version n = true) :
    is_dev n = false := by
  cases hd : is_dev n
  · rfl
  · have hv : n = "dev" := eq_of_beq hd
    subst hv
    exact absurd h (by decide)

/-- C4: given the installed manifest and the manifest rendered from the
fetched configuration, `Env.check_upgrade` persists the rendered manifest as
the pending-upgrade manifest exactly when it differs from the installed one,
in which case it also writes the current/new display-version pair when the
installed manifest is readable; when the two manifests are equal it writes
nothing at all: the state, including any stale pending-upgrade file, is
returned untouched. -/
theorem C4_check_upgrade (package : String) (st : EnvFiles) (M : String) :
    (st.requirements ≠ some M →
      (check_upgrade true (Except.ok M) package st).requirementsNew = some M) ∧
    (∀ cur, st.requirements = some cur → st.requirements ≠ some M →
      (check_upgrade true (Except.ok M) package st).upgrade =
        some (optStr (version_from package cur) ++ " " ++
              optStr (version_from package M))) ∧
    (st.requirements = some M → check_upgrade true (Except.ok M) package st = st) := by
  refine ⟨?_, ?_, ?_⟩
  · intro h
    cases hc : st.requirements with
    | none => simp [check_upgrade, hc]
    | some cur =>
      have hne : cur ≠ M := fun he => h (by rw [hc, he])
      simp [check_upgrade, hc, hne]
  · intro cur hcur h
    have hne : cur ≠ M := fun he => h (by rw [hcur, he])
    simp [check_upgrade, hcur, hne]
  · intro h
    simp [check_upgrade, h]

/-- Witness for the C4 theorem at a concrete input: a differing rendered
manifest is staged as the pending upgrade. -/
theorem C4_check_upgrade_witness :
    (check_upgrade true (Except.ok "p==2\n") "p"
        (EnvFiles.mk (some "p==1\n") none none)).requirementsNew =
      some "p==2\n" :=
  (C4_check_upgrade "p" (EnvFiles.mk (some "p==1\n") none none) "p==2\n").1
    (by decide)

/-- C5: for a version string classified as a tag (not the development
sentinel, not an existing file, matching the tag pattern), against a
configuration that has a tag table: when the tag resolves to a version
number that is itself a plain version number, rendering returns exactly the
pinned manifest of the Explicit variant, and coincides with rendering the
resolved version number directly; when the tag is absent from the table,
rendering fails with the UnknownTag error whose message enumerates the
table keys sorted ascending (the enumerated key list is sorted and is a
permutation of the table keys). -/
theorem C5_tag_render (base : String) (files : List String) (cfg : Config)
    (tags : List (String × String)) (v : String)
    (htags : cfg.tags = some tags) (hdev : is_dev v = false)
    (hwheel : is_wheel files v = false) (htag : is_tag v = true) :
    (∀ n, lookupTag v tags = some n → is_version n = true →
      is_wheel files n = false →
      renderRequirements base files cfg v =
        Except.ok (pinnedManifest cfg.package n) ∧
      renderRequirements base files cfg v =
        renderRequirements base files cfg n) ∧
    (lookupTag v tags = none →
      renderRequirements base files cfg v =
        Except.error (RunError.unknownTag
          (unknownTagMessage v (sortStrings (tags.map Prod.fst))))) ∧
    List.Sorted (fun a b => a ≤ b) (sortStrings (tags.map Prod.fst)) ∧
    List.Perm (sortStrings (tags.map Prod.fst)) (tags.map Prod.fst) := by
  refine ⟨?_, ?_, ?_, ?_⟩
  · intro n hn hver hwn
    have hdn : is_dev n = false := is_version_not_dev n hver
    have htn : is_tag n = false := is_version_not_tag n hver
    constructor
    · simp [renderRequirements, hdev, hwheel, htag, htags, hn]
    · simp [renderRequirements, hdev, hwheel, htag, htags, hn, hdn, hwn, htn]
  · intro hn
    simp [renderRequirements, hdev, hwheel, htag, htags, hn]
  · exact List.sorted_insertionSort (fun a b => a ≤ b) (tags.map Prod.fst)
  · exact List.perm_insertionSort (fun a b => a ≤ b) (tags.map Prod.fst)

/-- Witness for the C5 theorem at a concrete input: the tag `stable`
resolves through the table to the pinned manifest of version 2.3.0. -/
theorem C5_tag_render_witness :
    renderRequirements "/b" []
        (Config.mk "t-doc" "stable" (some [("beta", "3.0"), ("stable", "2.3.0")]))
        "stable" =
      Except.ok "t-doc==2.3.0\n" := by
  have h := (C5_tag_render "/b" []
      (Config.mk "t-doc" "stable" (some [("beta", "3.0"), ("stable", "2.3.0")]))
      [("beta", "3.0"), ("stable", "2.3.0")] "stable"
      rfl (by decide) (by decide) (by decide)).1 "2.3.0"
      (by decide) (by decide) (by decide)
  exact h.1

/-- C6: when materialization fails, `Env.create` rolls back and re-raises:
the original exception propagates to the caller and the partially created
environment directory is no longer present, so no partially-installed
directory is left behind; and when the failure happens inside the
voluntary-upgrade branch of main, the re-raised exception is caught there,
the previously active environment stays active, and the failure is reported
as a warning instead of being fatal. -/
theorem C6_create_rollback (err : String) (root : List String) (name : String)
    (oldPath : List String) (dirs : List (List String)) :
    (createEnv false err root name dirs).1 = Except.error err ∧
    (root ++ [name]) ∉ (createEnv false err root name dirs).2 ∧
    (upgradeAttempt false err root name oldPath dirs).active = oldPath ∧
    (upgradeAttempt false err root name oldPath dirs).warnings ≠ [] := by
  have hrm : removeEnv true root (root ++ [name]) ((root ++ [name]) :: dirs) =
      (((root ++ [name]) :: dirs).filter (fun d => d ≠ root ++ [name]), []) := by
    simp [removeEnv, removeEnvTry, relative_to_append]
  refine ⟨rfl, ?_, ?_, ?_⟩
  · simp [createEnv, hrm, List.mem_filter]
  · simp [upgradeAttempt, createEnv]
  · simp [upgradeAttempt, createEnv]

/-- Witness for the C6 theorem at a concrete input. -/
theorem C6_create_rollback_witness :
    (createEnv false "boom" ["r"] "v1" []).1 = Except.error "boom" :=
  (C6_create_rollback "boom" ["r"] "v1" ["r", "old"] []).1

/-- C10: when a pending upgrade is accepted and the new environment is
created successfully, the brand-new environment becomes the active one,
while the directory of the previously active environment is not removed by
the upgrade branch: it is still present afterwards (the eviction pass of
main runs before the upgrade prompt, so nothing in the same run deletes
it). -/
theorem C10_upgrade_keeps_old (err : String) (root : List String)
    (newName : String) (oldPath : List String) (dirs : List (List String))
    (h : oldPath ∈ dirs) :
    (upgradeAttempt true err root newName oldPath dirs).active =
      root ++ [newName] ∧
    oldPath ∈ (upgradeAttempt true err root newName oldPath dirs).dirs := by
  refine ⟨rfl, ?_⟩
  simp [upgradeAttempt, createEnv, h]

/-- Witness for the C10 theorem at a concrete input. -/
theorem C10_upgrade_keeps_old_witness :
    (upgradeAttempt true "e" ["r"] "1.0.1-b" ["r", "1.0.0-a"]
        [["r", "1.0.0-a"]]).active = ["r"] ++ ["1.0.1-b"] ∧
    ["r", "1.0.0-a"] ∈ (upgradeAttempt true "e" ["r"] "1.0.1-b"
        ["r", "1.0.0-a"] [["r", "1.0.0-a"]]).dirs :=
  C10_upgrade_keeps_old "e" ["r"] "1.0.1-b" ["r", "1.0.0-a"]
    [["r", "1.0.0-a"]] (by decide)

/-- C9: evaluation of the eviction pass at the failing input. With the
requested version `dev` and a stale directory `r/dev` whose requirements
file is unreadable, `find` enumerates the stale environment while
`matching` is empty, so main builds and selects a fresh environment at the
same path `r/dev` (a fresh KeepRef named dev); the eviction loop compares by
object identity (`e is not env`), does not recognize the stale enumeration
of the same directory, and removes `r/dev` — the directory of the
environment selected as keep: afterwards, the kept path is no longer
present. -/
theorem C9_eviction_eval :
    (find [] [EnvM.mk "dev" none] "dev").2 = [] ∧
    keepPath ["r"] ["dev"] (KeepRef.fresh "dev") = ["r", "dev"] ∧
    ["r", "dev"] ∈ [[ "r", "dev" ]] ∧
    (evict (fun _ => true) ["r"] ["dev"] (KeepRef.fresh "dev")
        [["r", "dev"]]).1 = [] := by
  refine ⟨by decide, by decide, by decide, by decide⟩

/-- C7: the effective version is resolved by precedence — a command-line
`--version=` argument wins over the environment-variable value, which wins
over the declared default of the configuration — and the validation of
`EnvBuilder.__init__` rejects a version string exactly when it matches none
of the four VersionSpec forms (no classification variant applies). -/
theorem C7_version_precedence (w dflt v : String) (envv : Option String)
    (files : List String) :
    effectiveVersion ["--version=" ++ w] envv dflt = Except.ok w ∧
    effectiveVersion ["--debug"] (some w) dflt = Except.ok w ∧
    effectiveVersion [] none dflt = Except.ok dflt ∧
    (validateVersion files v = Except.error ("Invalid version: " ++ v) ↔
      classify files v = none) := by
  refine ⟨rfl, rfl, rfl, ?_⟩
  cases h1 : is_dev v with
  | true =>
    have ht := is_dev_imp_tag v h1
    simp [validateVersion, classify, h1, ht]
  | false =>
    cases h2 : is_wheel files v <;> cases h3 : is_tag v <;>
      cases h4 : is_version v <;>
      simp [validateVersion, classify, h1, h2, h3, h4]

/-- Witness for the C7 theorem at a concrete input: the command-line
version wins against an environment-variable override and a default. -/
theorem C7_version_precedence_witness :
    effectiveVersion ["--version=" ++ "1.2.3"] (some "0.9") "0.1" =
      Except.ok "1.2.3" :=
  (C7_version_precedence "1.2.3" "0.1" "dev" (some "0.9") []).1

theorem strAppendTmp_ne (s : String) : s ++ ".tmp" ≠ s := by
  intro h
  have hd : (s ++ ".tmp").data = s.data := by rw [h]
  have hx : (s ++ ".tmp").data = s.data ++ ".tmp".data := rfl
  have h4 : (".tmp").data.length = 4 := rfl
  rw [hx] at hd
  have hlen : s.data.length + (".tmp").data.length = s.data.length := by
    rw [← List.length_append, hd]
  omega

theorem tmpName_ne (t : List String) : tmpName t ≠ t := by
  induction t with
  | nil =>
    intro h
    simp [tmpName] at h
  | cons a as ih =>
    cases as with
    | nil =>
      intro h
      simp [tmpName] at h
      exact strAppendTmp_ne a h
    | cons b rest =>
      intro h
      simp only [tmpName, List.cons.injEq] at h
      exact ih h.2

/-- C8: a reader of the target path never observes a partially written
file under `write_atomic`. Every state of the run except the final one
(that is, every state reachable when the run is aborted before the rename
commit) leaves the target exactly as it was, present or absent; every state
whatsoever shows the target either unchanged or holding exactly the full
content; and the final state, after the rename, yields exactly the bytes
written when the target is read back. -/
theorem C8_write_atomic (fs : FSm) (target : List String) (content : String) :
    (∀ st ∈ (writeAtomicStates fs target content).dropLast,
      readFS st target = readFS fs target) ∧
    (∀ st ∈ writeAtomicStates fs target content,
      readFS st target = readFS fs target ∨ readFS st target = some content) ∧
    (∃ stF, (writeAtomicStates fs target content).getLast? = some stF ∧
      readFS stF target = some content) := by
  have htmp : ¬(tmpName target = target) := tmpName_ne target
  have hpre : ∀ st ∈ (fs :: (List.range (content.length + 1)).map
      (fun k => setFS (tmpName target) (String.mk (content.data.take k)) fs)),
      readFS st target = readFS fs target := by
    intro st hst
    rcases List.mem_cons.mp hst with h | h
    · rw [h]
    · rcases List.mem_map.mp h with ⟨k, _, hk⟩
      rw [← hk]
      simp [setFS, readFS, htmp]
  refine ⟨?_, ?_, ?_⟩
  · intro st hst
    rw [writeAtomicStates, List.dropLast_concat] at hst
    exact hpre st hst
  · intro st hst
    rw [writeAtomicStates] at hst
    rcases List.mem_append.mp hst with h | h
    · exact Or.inl (hpre st h)
    · have hc : st = setFS target content (delFS (tmpName target) fs) :=
        List.mem_singleton.mp h
      rw [hc]
      right
      simp [setFS, readFS]
  · refine ⟨setFS target content (delFS (tmpName target) fs), ?_, ?_⟩
    · rw [writeAtomicStates]
      exact List.getLast?_concat _
    · simp [setFS, readFS]

/-- Witness for the C8 theorem at a concrete input: an intermediate state
of the run (the temporary file holding a strict prefix of the content)
leaves the target unchanged. -/
theorem C8_write_atomic_witness :
    readFS (setFS (tmpName ["d", "f.txt"]) (String.mk ("hi".data.take 1)) [])
        ["d", "f.txt"] =
      readFS ([] : FSm) ["d", "f.txt"] :=
  (C8_write_atomic [] ["d", "f.txt"] "hi").1
    (setFS (tmpName ["d", "f.txt"]) (String.mk ("hi".data.take 1)) [])
    (by decide)
